import Mathlib

/-!
Verification of the libretro-raylib plugin host.

Shallow embedding of the audio ring buffer, pixel-format conversion,
environment command handler, core loader and frame loop from the C sources
(src/libretro_audio.c, src/libretro_video.c, src/libretro_environment.c,
src/libretro_core.c, src/libretro_frontend.c), together with theorems
settling the specification's testable properties.

Modelling conventions:
- size_t values are Nat; where C performs size_t subtraction that could
  wrap, the embedding computes modulo 2^64 explicitly (subSizeT).
- The int16 -> float conversion (float)s / 32768.0f is exact in IEEE
  binary32 (|s| <= 2^15 and s * 2^-15 has at most 16 significant bits,
  below the 24-bit mantissa), and the host only stores and reloads the
  converted values, never computing with them; so audio samples are
  modelled as exact rationals s / 32768.
- NULL/non-NULL pointers are modelled as Option / Bool flags.
-/

namespace Libretro

/-- An interleaved stereo frame of int16 samples, as handed over by the
plugin to the audio batch callback. -/
abbrev I16Frame := Int × Int

/-- A stereo frame as stored in the ring buffer (float samples, modelled
exactly as rationals; see the header comment). -/
abbrev SFrame := Rat × Rat

/-- The conversion (float)s / 32768.0f from libretro_audio.c line 108. -/
def i16ToFloat (s : Int) : Rat := (s : Rat) / 32768

/-- Conversion of one interleaved stereo frame. -/
def frameToFloat (f : I16Frame) : SFrame := (i16ToFloat f.1, i16ToFloat f.2)

/-- A zero-valued (silent) stereo frame. -/
def silentFrame : SFrame := (0, 0)

/-- Modulus of the C type size_t on the target platform. -/
def SIZE_T_MOD : Nat := 2 ^ 64

/-- size_t subtraction a - b, wrapping modulo 2^64 as in C. -/
def subSizeT (a b : Nat) : Nat := (SIZE_T_MOD + a - b) % SIZE_T_MOD

theorem subSizeT_eq_sub (a b : Nat) (hba : b ≤ a) (ha : a < SIZE_T_MOD) :
    subSizeT a b = a - b := by
  unfold subSizeT
  have h1 : SIZE_T_MOD + a - b = SIZE_T_MOD + (a - b) := by omega
  rw [h1, Nat.add_mod_left]
  exact Nat.mod_eq_of_lt (by omega)

/-- The audio ring buffer fields of libretro_frontend_t
(src/libretro_frontend.h lines 57-61): a circular array of interleaved
stereo float frames with capacity `size`, read/write positions and the
count of frames available to read. `buf` has length `size`; a size of 0
models an unallocated (NULL) ring buffer. -/
structure AudioRing where
  size : Nat
  buf : Array SFrame
  readPos : Nat
  writePos : Nat
  avail : Nat
deriving Repr, DecidableEq

/-- The write loop of retro_audio_sample_batch_callback
(src/libretro_audio.c lines 104-110): frame i of `data` is converted to
float and stored at index (writePos + i) % size.  `idx` carries
writePos + i through the recursion. -/
def ringStore (size : Nat) : Array SFrame → Nat → List I16Frame → Array SFrame
  | buf, _, [] => buf
  | buf, idx, f :: rest => ringStore size (buf.setD (idx % size) (frameToFloat f)) (idx + 1) rest

/-- retro_audio_sample_batch_callback (src/libretro_audio.c lines 78-116;
the copy in src/libretro_frontend.c lines 1495-1547 computes the same
function: its contiguous fast path writes the same cells as the general
wrap-around loop).  Returns the updated ring state and the accepted frame
count.  The NULL data-pointer guard has no counterpart since `data` is a
list; a NULL/unallocated buffer is `size = 0`. -/
def retro_audio_sample_batch_callback (a : AudioRing) (data : List I16Frame) :
    AudioRing × Nat :=
  if data.length = 0 then (a, 0)
  else if a.size = 0 then (a, 0)
  else
    let availableSpace := subSizeT a.size a.avail
    let framesToWrite := min data.length availableSpace
    if framesToWrite = 0 then (a, 0)
    else
      ({ a with
          buf := ringStore a.size a.buf a.writePos (data.take framesToWrite),
          writePos := (a.writePos + framesToWrite) % a.size,
          avail := a.avail + framesToWrite }, framesToWrite)

/-- libretro_frontend_get_audio_samples (src/libretro_frontend.c lines
1006-1034).  Returns the updated ring state and the frames read; the
caller's output buffer receives exactly these frames.  The contiguous
fast path (memcpy) reads the same cells as the general wrap-around loop,
so one loop models both. -/
def libretro_frontend_get_audio_samples (a : AudioRing) (maxFrames : Nat) :
    AudioRing × List SFrame :=
  if maxFrames = 0 then (a, [])
  else
    let framesToRead := min maxFrames a.avail
    if framesToRead = 0 then (a, [])
    else
      ({ a with
          readPos := (a.readPos + framesToRead) % a.size,
          avail := a.avail - framesToRead },
       (List.range framesToRead).map
         (fun i => a.buf.getD ((a.readPos + i) % a.size) silentFrame))

/-- One ring-buffer operation: a batch write or a read. -/
inductive AudioOp where
  | write (data : List I16Frame)
  | read (maxFrames : Nat)
deriving Repr

/-- State effect of one ring-buffer operation. -/
def applyOp (a : AudioRing) : AudioOp → AudioRing
  | .write data => (retro_audio_sample_batch_callback a data).1
  | .read n => (libretro_frontend_get_audio_samples a n).1

/-- State effect of a sequence of ring-buffer operations. -/
def applyOps (a : AudioRing) (ops : List AudioOp) : AudioRing := ops.foldl applyOp a

theorem applyOp_size (a : AudioRing) (op : AudioOp) : (applyOp a op).size = a.size := by
  cases op with
  | write data =>
      simp only [applyOp, retro_audio_sample_batch_callback]
      split
      · rfl
      · split
        · rfl
        · split
          · rfl
          · rfl
  | read n =>
      simp only [applyOp, libretro_frontend_get_audio_samples]
      split
      · rfl
      · split
        · rfl
        · rfl

theorem applyOp_avail_le (a : AudioRing) (op : AudioOp)
    (hsize : a.size < SIZE_T_MOD) (hinv : a.avail ≤ a.size) :
    (applyOp a op).avail ≤ (applyOp a op).size := by
  have hsub := subSizeT_eq_sub a.size a.avail hinv hsize
  cases op with
  | write data =>
      simp only [applyOp, retro_audio_sample_batch_callback]
      split
      · exact hinv
      · split
        · exact hinv
        · rw [hsub]
          split
          · exact hinv
          · simp only
            omega
  | read n =>
      simp only [applyOp, libretro_frontend_get_audio_samples]
      split
      · exact hinv
      · split
        · exact hinv
        · simp only
          omega

/-- C1: For every call to the audio batch write with an initialized ring
buffer (size nonzero, here together with the representability and
invariant facts that hold of every live C state) and a non-empty batch,
the accepted and returned count is min(frame_count, capacity - available);
when that minimum is zero the call returns 0 and changes nothing. -/
theorem batch_write_accepts_min (a : AudioRing) (data : List I16Frame)
    (hinit : a.size ≠ 0) (hdata : data.length ≠ 0)
    (hsize : a.size < SIZE_T_MOD) (hinv : a.avail ≤ a.size) :
    (retro_audio_sample_batch_callback a data).2
        = min data.length (a.size - a.avail) ∧
    (min data.length (a.size - a.avail) = 0 →
        retro_audio_sample_batch_callback a data = (a, 0)) := by
  have hsub := subSizeT_eq_sub a.size a.avail hinv hsize
  simp only [retro_audio_sample_batch_callback, hdata, hinit, if_neg, if_false, hsub]
  constructor
  · split
    · omega
    · rfl
  · intro hmin
    simp [hmin]

theorem batch_write_accepts_min_witness :
    (retro_audio_sample_batch_callback ⟨4, Array.mkArray 4 silentFrame, 0, 0, 3⟩
        [(1, 2), (3, 4), (5, 6)]).2 = min 3 (4 - 3) ∧
    (min 3 (4 - 3) = 0 →
        retro_audio_sample_batch_callback ⟨4, Array.mkArray 4 silentFrame, 0, 0, 3⟩
          [(1, 2), (3, 4), (5, 6)] = (⟨4, Array.mkArray 4 silentFrame, 0, 0, 3⟩, 0)) :=
  batch_write_accepts_min ⟨4, Array.mkArray 4 silentFrame, 0, 0, 3⟩
    [(1, 2), (3, 4), (5, 6)] (by decide) (by decide)
    (by norm_num [SIZE_T_MOD]) (by decide)

theorem applyOps_size (a : AudioRing) (ops : List AudioOp) :
    (applyOps a ops).size = a.size := by
  induction ops generalizing a with
  | nil => rfl
  | cons op rest ih =>
      simp only [applyOps, List.foldl_cons] at *
      rw [ih (applyOp a op), applyOp_size]

theorem applyOps_avail_le (a : AudioRing) (ops : List AudioOp)
    (hsize : a.size < SIZE_T_MOD) (hinv : a.avail ≤ a.size) :
    (applyOps a ops).avail ≤ (applyOps a ops).size := by
  induction ops generalizing a with
  | nil => exact hinv
  | cons op rest ih =>
      simp only [applyOps, List.foldl_cons] at *
      exact ih (applyOp a op) (by rw [applyOp_size]; exact hsize)
        (applyOp_avail_le a op hsize hinv)

/-- C4: The invariant 0 <= available <= capacity (the lower bound is the
Nat typing) is preserved by every write and every read - hence by any
sequence of such operations - and every write returns a count no larger
than capacity - available at the moment of the call. -/
theorem ring_invariant_preserved (a : AudioRing) (op : AudioOp)
    (ops : List AudioOp) (data : List I16Frame)
    (hsize : a.size < SIZE_T_MOD) (hinv : a.avail ≤ a.size) :
    (applyOp a op).avail ≤ (applyOp a op).size ∧
    (applyOps a ops).avail ≤ (applyOps a ops).size ∧
    (retro_audio_sample_batch_callback a data).2 ≤ a.size - a.avail := by
  refine ⟨applyOp_avail_le a op hsize hinv, applyOps_avail_le a ops hsize hinv, ?_⟩
  have hsub := subSizeT_eq_sub a.size a.avail hinv hsize
  simp only [retro_audio_sample_batch_callback]
  split
  · omega
  · split
    · omega
    · rw [hsub]
      split
      · omega
      · simp only
        omega

theorem ring_invariant_preserved_witness :
    (applyOp ⟨4, Array.mkArray 4 silentFrame, 1, 1, 2⟩ (.write [(7, 8)])).avail
        ≤ (applyOp ⟨4, Array.mkArray 4 silentFrame, 1, 1, 2⟩ (.write [(7, 8)])).size ∧
    (applyOps ⟨4, Array.mkArray 4 silentFrame, 1, 1, 2⟩
        [.write [(7, 8)], .read 3]).avail
      ≤ (applyOps ⟨4, Array.mkArray 4 silentFrame, 1, 1, 2⟩
          [.write [(7, 8)], .read 3]).size ∧
    (retro_audio_sample_batch_callback ⟨4, Array.mkArray 4 silentFrame, 1, 1, 2⟩
        [(7, 8)]).2 ≤ 4 - 2 :=
  ring_invariant_preserved ⟨4, Array.mkArray 4 silentFrame, 1, 1, 2⟩
    (.write [(7, 8)]) [.write [(7, 8)], .read 3] [(7, 8)]
    (by norm_num [SIZE_T_MOD]) (by decide)

theorem getD_setD_ne (a : Array SFrame) (i k : Nat) (v d : SFrame) (hik : i ≠ k) :
    (a.setD i v).getD k d = a.getD k d := by
  unfold Array.setD
  split
  · next hi =>
      simp only [Array.getD, Array.size_set]
      split
      · next hk => exact Array.get_set_ne a ⟨i, hi⟩ v hk hik
      · rfl
  · rfl

theorem getD_setD_self (a : Array SFrame) (i : Nat) (v d : SFrame) (hi : i < a.size) :
    (a.setD i v).getD i d = v := by
  simp [Array.getD, Array.size_setD, hi, Array.getElem_setD]

theorem ringStore_size (size : Nat) (buf : Array SFrame) (start : Nat)
    (data : List I16Frame) : (ringStore size buf start data).size = buf.size := by
  induction data generalizing buf start with
  | nil => rfl
  | cons f rest ih =>
      simp only [ringStore]
      rw [ih, Array.size_setD]

theorem add_mod_cancel_of_mod_eq (start m n : Nat)
    (h : (start + m) % n = start % n) : m % n = 0 := by
  have h1 : start + m ≡ start + 0 [MOD n] := by
    simpa [Nat.ModEq] using h
  have h2 : m ≡ 0 [MOD n] := Nat.ModEq.add_left_cancel (Nat.ModEq.refl start) h1
  simpa [Nat.ModEq] using h2

theorem ringStore_untouched (size : Nat) (buf : Array SFrame) (start : Nat)
    (data : List I16Frame) (k : Nat) (d : SFrame)
    (hk : ∀ i, i < data.length → (start + i) % size ≠ k) :
    (ringStore size buf start data).getD k d = buf.getD k d := by
  induction data generalizing buf start with
  | nil => rfl
  | cons f rest ih =>
      simp only [ringStore]
      rw [ih (buf.setD (start % size) (frameToFloat f)) (start + 1)
          (fun i hi => by
            have h := hk (i + 1) (by simpa using Nat.succ_lt_succ hi)
            rwa [show start + (i + 1) = start + 1 + i by omega] at h)]
      exact getD_setD_ne buf (start % size) k _ d (by simpa using hk 0 (by simp))

theorem ringStore_lookup (size : Nat) (d : SFrame) (data : List I16Frame)
    (buf : Array SFrame) (start j : Nat) (hsize : 0 < size)
    (hbuf : size ≤ buf.size) (hlen : data.length ≤ size) (hj : j < data.length) :
    (ringStore size buf start data).getD ((start + j) % size) d
      = frameToFloat (data.get ⟨j, hj⟩) := by
  induction data generalizing buf start j with
  | nil => exact absurd hj (by simp)
  | cons f rest ih =>
      have hlen2 : rest.length + 1 ≤ size := by simpa using hlen
      cases j with
      | zero =>
          simp only [ringStore, Nat.add_zero, List.get]
          rw [ringStore_untouched size _ (start + 1) rest (start % size) d
              (fun i hi heq => by
                have h2 := add_mod_cancel_of_mod_eq start (1 + i) size
                  (by rwa [show start + 1 + i = start + (1 + i) by omega] at heq)
                rw [Nat.mod_eq_of_lt (by omega)] at h2
                omega)]
          exact getD_setD_self buf (start % size) _ d
            (lt_of_lt_of_le (Nat.mod_lt _ hsize) hbuf)
      | succ j =>
          simp only [ringStore]
          rw [show start + (j + 1) = (start + 1) + j by omega]
          exact ih (buf.setD (start % size) (frameToFloat f)) (start + 1) j
            (by rw [Array.size_setD]; exact hbuf) (by omega)
            (Nat.lt_of_succ_lt_succ hj)

theorem batch_write_eq (a : AudioRing) (data : List I16Frame)
    (h0 : ¬ data.length = 0) (hs : ¬ a.size = 0) (hsz : a.size < SIZE_T_MOD)
    (hinv : a.avail ≤ a.size) (hroom : data.length ≤ a.size - a.avail) :
    retro_audio_sample_batch_callback a data
      = ({ a with
            buf := ringStore a.size a.buf a.writePos data,
            writePos := (a.writePos + data.length) % a.size,
            avail := a.avail + data.length }, data.length) := by
  have hsub := subSizeT_eq_sub a.size a.avail hinv hsz
  have hmin : min data.length (subSizeT a.size a.avail) = data.length := by
    rw [hsub]
    exact Nat.min_eq_left hroom
  simp only [retro_audio_sample_batch_callback, hmin, if_neg h0, if_neg hs,
    List.take_length]

theorem get_audio_samples_eq (a : AudioRing) (n : Nat) (h0 : ¬ n = 0)
    (hle : n ≤ a.avail) :
    libretro_frontend_get_audio_samples a n
      = ({ a with readPos := (a.readPos + n) % a.size, avail := a.avail - n },
         (List.range n).map
           (fun i => a.buf.getD ((a.readPos + i) % a.size) silentFrame)) := by
  have hmin : min n a.avail = n := Nat.min_eq_left hle
  simp only [libretro_frontend_get_audio_samples, hmin, if_neg h0]

/-- C3: Starting from an empty ring buffer (read and write positions
equal, nothing available), writing N interleaved stereo int16 frames with
0 < N <= capacity and then immediately reading N frames accepts all N
frames and yields the same frames in order, each int16 sample s reproduced
as the float s/32768 (exact; see the header comment). -/
theorem write_then_read_roundtrip (C N p : Nat) (buf : Array SFrame)
    (data : List I16Frame) (hC : 0 < C) (hC64 : C < SIZE_T_MOD)
    (hbuf : buf.size = C) (hlen : data.length = N) (hN : 0 < N) (hNC : N ≤ C) :
    (retro_audio_sample_batch_callback ⟨C, buf, p, p, 0⟩ data).2 = N ∧
    (libretro_frontend_get_audio_samples
        (retro_audio_sample_batch_callback ⟨C, buf, p, p, 0⟩ data).1 N).2
      = data.map frameToFloat := by
  subst hlen
  have hw := batch_write_eq ⟨C, buf, p, p, 0⟩ data (by omega) (by simp; omega)
    (by simpa using hC64) (by simp) (by simp; omega)
  rw [hw]
  refine ⟨rfl, ?_⟩
  have hr := get_audio_samples_eq
    ({ (⟨C, buf, p, p, 0⟩ : AudioRing) with
        buf := ringStore C buf p data,
        writePos := (p + data.length) % C,
        avail := 0 + data.length }) data.length (by omega) (by simp)
  rw [hr]
  apply List.ext_get
  · simp
  · intro n h1 h2
    simp only [List.get_eq_getElem, List.getElem_map, List.getElem_range]
    have h3 : n < data.length := by simpa using h2
    have h4 := ringStore_lookup C silentFrame data buf p n hC (le_of_eq hbuf.symm)
      (by omega) h3
    simpa using h4

theorem write_then_read_roundtrip_witness :
    (retro_audio_sample_batch_callback ⟨4, Array.mkArray 4 silentFrame, 3, 3, 0⟩
        [(1, -2), (32767, -32768)]).2 = 2 ∧
    (libretro_frontend_get_audio_samples
        (retro_audio_sample_batch_callback ⟨4, Array.mkArray 4 silentFrame, 3, 3, 0⟩
          [(1, -2), (32767, -32768)]).1 2).2
      = ([(1, -2), (32767, -32768)] : List I16Frame).map frameToFloat :=
  write_then_read_roundtrip 4 2 3 (Array.mkArray 4 silentFrame)
    [(1, -2), (32767, -32768)] (by decide) (by norm_num [SIZE_T_MOD]) (by decide)
    (by decide) (by decide) (by decide)

/-- C5 (amended): reading from an empty ring buffer returns zero frames
and leaves the state unchanged - the read side never pads its output;
it always returns exactly min(max_frames, available) real frames. -/
theorem read_empty_returns_no_frames (a : AudioRing) (maxFrames : Nat)
    (hempty : a.avail = 0) (hpos : 0 < maxFrames) :
    libretro_frontend_get_audio_samples a maxFrames = (a, []) := by
  simp [libretro_frontend_get_audio_samples, hempty, Nat.pos_iff_ne_zero.mp hpos]

theorem read_empty_returns_no_frames_witness :
    libretro_frontend_get_audio_samples ⟨4, Array.mkArray 4 silentFrame, 2, 2, 0⟩ 3
      = (⟨4, Array.mkArray 4 silentFrame, 2, 2, 0⟩, []) :=
  read_empty_returns_no_frames ⟨4, Array.mkArray 4 silentFrame, 2, 2, 0⟩ 3
    (by decide) (by decide)

/-- C5 counterexample: with available == 0 the read call does NOT return
max_frames silent frames (the pad policy claimed by the spec); it returns
the empty list. -/
theorem read_empty_pad_policy_cex :
    ¬ ((libretro_frontend_get_audio_samples
          ⟨4, Array.mkArray 4 silentFrame, 0, 0, 0⟩ 3).2
        = List.replicate 3 silentFrame) := by
  decide

/-- Per-pixel RGB565 -> RGBA8888 conversion from
retro_video_refresh_callback (src/libretro_video.c lines 207-214): the
5/6/5-bit channels are extracted and left-shifted (only) to 8 bits, alpha
is forced to 0xFF, and the 32-bit destination word is
(A << 24) | (B << 16) | (G << 8) | R, i.e. bytes R,G,B,A in memory. The
leading `% 65536` embeds the uint16_t load of the source pixel. -/
def rgb565PixelToRGBA (p : Nat) : Nat :=
  let pixel := p % 65536
  let r := ((pixel >>> 11) &&& 0x1F) <<< 3
  let g := ((pixel >>> 5) &&& 0x3F) <<< 2
  let b := (pixel &&& 0x1F) <<< 3
  (0xFF <<< 24) ||| (b <<< 16) ||| (g <<< 8) ||| r

/-- The RETRO_PIXEL_FORMAT_RGB565 fast path of retro_video_refresh_callback
(src/libretro_video.c lines 197-231) for pitch == width*2: the source
pixel at row y, column x sits at linear index y*(pitch/2)+x = y*width+x,
and the destination word at the same linear index, so the double loop is
the per-pixel map over the width*height linear indices. -/
def retro_video_refresh_rgb565 (width height : Nat) (src : List Nat) : List Nat :=
  (List.range (width * height)).map (fun i => rgb565PixelToRGBA (src.getD i 0))

/-- Red channel of a canonical RGBA8888 word: first byte in memory. -/
def rgbaRed (p : Nat) : Nat := p % 256

/-- Green channel of a canonical RGBA8888 word. -/
def rgbaGreen (p : Nat) : Nat := (p / 256) % 256

/-- Blue channel of a canonical RGBA8888 word. -/
def rgbaBlue (p : Nat) : Nat := (p / 65536) % 256

/-- Alpha channel of a canonical RGBA8888 word. -/
def rgbaAlpha (p : Nat) : Nat := (p / 16777216) % 256

/-- C2 counterexample: converting the RGB565 pixel 0xF800 does not give
red channel 255 - the channels are left-shifted only, so pure red maps to
248, not 255. -/
theorem rgb565_claimed_vectors_cex :
    ¬ (rgbaRed ((retro_video_refresh_rgb565 1 1 [0xF800]).getD 0 0) = 255) := by
  decide

/-- C2 (amended): with channels expanded by left shift only (red/blue
5 bits << 3, green 6 bits << 2) and alpha forced opaque, the converter
maps 0xF800 to (248,0,0,255), 0x07E0 to (0,252,0,255) and 0x001F to
(0,0,248,255). -/
theorem rgb565_conversion_vectors :
    ((fun p => (rgbaRed p, rgbaGreen p, rgbaBlue p, rgbaAlpha p))
        ((retro_video_refresh_rgb565 3 1 [0xF800, 0x07E0, 0x001F]).getD 0 0)
      = (248, 0, 0, 255)) ∧
    ((fun p => (rgbaRed p, rgbaGreen p, rgbaBlue p, rgbaAlpha p))
        ((retro_video_refresh_rgb565 3 1 [0xF800, 0x07E0, 0x001F]).getD 1 0)
      = (0, 252, 0, 255)) ∧
    ((fun p => (rgbaRed p, rgbaGreen p, rgbaBlue p, rgbaAlpha p))
        ((retro_video_refresh_rgb565 3 1 [0xF800, 0x07E0, 0x001F]).getD 2 0)
      = (0, 0, 248, 255)) := by
  decide

/-- The session-state fields of libretro_frontend_t
(src/libretro_frontend.h) that the environment handler and the AV-info
update path touch.  Float fields (aspect ratio, fps) are only ever copied
verbatim from the plugin's records, so they are modelled as exact
rationals.  framebufferSize models framebuffer_size; the buffer bytes
themselves are owned by the video converter and not needed here. -/
structure Frontend where
  width : Nat
  height : Nat
  aspect : Rat
  fps : Rat
  pixelFormat : Nat
  pixelFormatRaw : Nat
  audioSampleRate : Nat
  audio : AudioRing
  framebufferSize : Nat
deriving Repr, DecidableEq

/-- The payload of RETRO_ENVIRONMENT_SET_SYSTEM_AV_INFO and of
retro_get_system_av_info (struct retro_system_av_info): geometry plus
timing.  sampleRateU is the value of (unsigned)timing.sample_rate, i.e.
the sample rate after C's float-to-unsigned truncation. -/
structure AVInfoPayload where
  baseWidth : Nat
  baseHeight : Nat
  aspect : Rat
  fps : Rat
  sampleRateU : Nat
deriving Repr, DecidableEq

/-- The RETRO_ENVIRONMENT_SET_PIXEL_FORMAT case of
retro_environment_callback (src/libretro_environment.c lines 62-94;
identical in src/libretro_frontend.c lines 1070-1107).  Pixel format
constants from src/libretro_api.h: 0RGB1555 = 0, XRGB8888 = 1,
RGB565 = 2, RGB555 = 12.  Every branch returns true. -/
def envSetPixelFormat (fe : Frontend) (format : Nat) : Frontend × Bool :=
  if format = 0 then ({ fe with pixelFormat := 0, pixelFormatRaw := format }, true)
  else if format = 1 then ({ fe with pixelFormat := 1, pixelFormatRaw := format }, true)
  else if format = 2 then ({ fe with pixelFormat := 2, pixelFormatRaw := format }, true)
  else if format = 12 then ({ fe with pixelFormat := 2, pixelFormatRaw := 12 }, true)
  else ({ fe with pixelFormat := 2, pixelFormatRaw := format }, true)

/-- The case 32 (RETRO_ENVIRONMENT_SET_SYSTEM_AV_INFO) handler
(src/libretro_environment.c lines 147-164): copies geometry and fps into
the session, and records the new sample rate when it is non-zero and
different - the audio ring buffer is NOT touched. -/
def envSetSystemAVInfo (fe : Frontend) (av : AVInfoPayload) : Frontend × Bool :=
  let fe1 := { fe with
    width := av.baseWidth, height := av.baseHeight,
    aspect := av.aspect, fps := av.fps }
  if av.sampleRateU > 0 ∧ av.sampleRateU ≠ fe.audioSampleRate then
    ({ fe1 with audioSampleRate := av.sampleRateU }, true)
  else (fe1, true)

/-- The case 37 (RETRO_ENVIRONMENT_SET_GEOMETRY) handler
(src/libretro_environment.c lines 165-176). -/
def envSetGeometry (fe : Frontend) (w h : Nat) (aspect : Rat) : Frontend × Bool :=
  ({ fe with width := w, height := h, aspect := aspect }, true)

/-- The void* payload of an environment command, by the shape each
recognized command reads through it.  outPtr stands for any non-NULL
pointer a GET-style command writes its answer through (those writes never
touch session state). -/
inductive EnvData where
  | null
  | outPtr
  | fmt (format : Nat)
  | avinfo (av : AVInfoPayload)
  | geom (w h : Nat) (aspect : Rat)
deriving Repr, DecidableEq

/-- Whether the payload models a NULL data pointer. -/
def EnvData.isNull : EnvData → Bool
  | .null => true
  | _ => false

/-- The command ids retro_environment_callback's switch recognizes
(src/libretro_environment.c lines 61-189), by their numeric values from
src/libretro_api.h: SET_PIXEL_FORMAT 10, GET_SYSTEM_DIRECTORY 7,
GET_SAVE_DIRECTORY 31, SET_SUPPORT_NO_GAME 18, GET_CONTENT_DIRECTORY 30,
SET_INPUT_DESCRIPTORS 9, SET_KEYBOARD_CALLBACK 12, SET_VARIABLES 14,
GET_AUDIO_VIDEO_ENABLE 52, SET_AUDIO_VIDEO_ENABLE 53, SET_AUDIO_CALLBACK
22, SET_FASTFORWARDING 39, SET_DISK_CONTROL_INTERFACE 11, and the literal
cases 32, 37, GET_LOG_INTERFACE 27, and 33, 34, 35, 36, 38. -/
def recognizedCmds : List Nat :=
  [7, 9, 10, 11, 12, 14, 18, 22, 27, 30, 31, 32, 33, 34, 35, 36, 37, 38, 39, 52, 53]

/-- retro_environment_callback (src/libretro_environment.c lines 39-193;
textually identical to the static copy in src/libretro_frontend.c lines
1044-1222).  GET-style commands (7, 31, 18, 30, 52, 27) require a
non-NULL data pointer and answer through it without changing session
state; pure acknowledgements return true untouched; the default case
returns false untouched.  A recognized command fed a payload of the wrong
shape has no defined C behaviour and is modelled as rejection; no claim
depends on that branch. -/
def retro_environment_callback (fe : Frontend) (cmd : Nat) (data : EnvData) :
    Frontend × Bool :=
  if cmd = 10 then
    match data with
    | .fmt f => envSetPixelFormat fe f
    | _ => (fe, false)
  else if cmd = 7 ∨ cmd = 31 ∨ cmd = 18 ∨ cmd = 30 ∨ cmd = 52 ∨ cmd = 27 then
    (fe, ! data.isNull)
  else if cmd = 9 ∨ cmd = 12 ∨ cmd = 14 ∨ cmd = 53 ∨ cmd = 22 ∨ cmd = 39 ∨
      cmd = 11 ∨ cmd = 33 ∨ cmd = 34 ∨ cmd = 35 ∨ cmd = 36 ∨ cmd = 38 then
    (fe, true)
  else if cmd = 32 then
    match data with
    | .avinfo av => envSetSystemAVInfo fe av
    | _ => (fe, false)
  else if cmd = 37 then
    match data with
    | .geom w h aspect => envSetGeometry fe w h aspect
    | _ => (fe, false)
  else (fe, false)

/-- libretro_frontend_update_av_info (src/libretro_frontend.c lines
618-685; same logic in libretro_core_update_av_info, src/libretro_core.c
lines 166-215), given the retro_system_av_info record the plugin reports:
copies geometry, maps a reported 0 Hz rate to 44100, and when the
resulting rate differs from the current one frees the ring buffer and
reallocates it zeroed with capacity rate/4 (fallback 11025 if that
quotient is 0), resetting read/write/available to 0; then copies fps and
reallocates the framebuffer when width*height*4 changed (allocation
assumed to succeed; the !framebuffer disjunct of the C condition is a
pointer-liveness detail outside this state model). -/
def libretro_frontend_update_av_info (fe : Frontend) (av : AVInfoPayload) :
    Frontend :=
  let fe1 := { fe with
    width := av.baseWidth, height := av.baseHeight, aspect := av.aspect }
  let newRate := if av.sampleRateU = 0 then 44100 else av.sampleRateU
  let fe2 :=
    if newRate ≠ fe.audioSampleRate then
      let ringSize := if newRate / 4 = 0 then 11025 else newRate / 4
      { fe1 with
          audioSampleRate := newRate,
          audio := ⟨ringSize, Array.mkArray ringSize silentFrame, 0, 0, 0⟩ }
    else fe1
  let fe3 := { fe2 with fps := av.fps }
  let newFbSize := fe3.width * fe3.height * 4
  if newFbSize ≠ fe.framebufferSize then { fe3 with framebufferSize := newFbSize }
  else fe3

/-- The session state immediately after libretro_frontend_init
(src/libretro_frontend.c lines 466-497): 320x240, aspect 4/3, 60 fps,
44100 Hz, ring buffer of 44100/4 = 11025 zeroed frames, default pixel
format XRGB8888 (= 1). -/
def initFrontend : Frontend :=
  { width := 320, height := 240, aspect := 4 / 3, fps := 60,
    pixelFormat := 1, pixelFormatRaw := 1,
    audioSampleRate := 44100,
    audio := ⟨11025, Array.mkArray 11025 silentFrame, 0, 0, 0⟩,
    framebufferSize := 0 }

/-- C6 counterexample: handling the AV-info environment command (case 32)
with a new sample rate of 48000 Hz on a session at 44100 Hz does NOT
reallocate the ring buffer to 48000/4 = 12000 frames and does not reset
available to 0 - the handler only records the rate. -/
theorem env_av_info_reallocation_cex :
    ¬ (((envSetSystemAVInfo
            ⟨320, 240, 4 / 3, 60, 1, 1, 44100,
              ⟨8, Array.mkArray 8 silentFrame, 0, 0, 5⟩, 0⟩
            ⟨384, 272, 4 / 3, 50, 48000⟩).1.audio.size = 48000 / 4) ∧
        ((envSetSystemAVInfo
            ⟨320, 240, 4 / 3, 60, 1, 1, 44100,
              ⟨8, Array.mkArray 8 silentFrame, 0, 0, 5⟩, 0⟩
            ⟨384, 272, 4 / 3, 50, 48000⟩).1.audio.readPos = 0) ∧
        ((envSetSystemAVInfo
            ⟨320, 240, 4 / 3, 60, 1, 1, 44100,
              ⟨8, Array.mkArray 8 silentFrame, 0, 0, 5⟩, 0⟩
            ⟨384, 272, 4 / 3, 50, 48000⟩).1.audio.writePos = 0) ∧
        ((envSetSystemAVInfo
            ⟨320, 240, 4 / 3, 60, 1, 1, 44100,
              ⟨8, Array.mkArray 8 silentFrame, 0, 0, 5⟩, 0⟩
            ⟨384, 272, 4 / 3, 50, 48000⟩).1.audio.avail = 0)) := by
  decide

/-- C6 (amended): the AV-info environment command leaves the ring buffer
untouched (it only records the new rate); the reallocation to rate/4
capacity (fallback 11025 when the quotient is 0) with read index, write
index and available reset to 0 happens on the frontend's update-AV-info
path whenever the reported rate (0 mapped to 44100) differs from the
session's current rate. -/
theorem av_info_reallocation (fe : Frontend) (av : AVInfoPayload)
    (hdiff : (if av.sampleRateU = 0 then 44100 else av.sampleRateU)
        ≠ fe.audioSampleRate) :
    (envSetSystemAVInfo fe av).1.audio = fe.audio ∧
    (libretro_frontend_update_av_info fe av).audioSampleRate
        = (if av.sampleRateU = 0 then 44100 else av.sampleRateU) ∧
    (libretro_frontend_update_av_info fe av).audio.size
        = (if (if av.sampleRateU = 0 then 44100 else av.sampleRateU) / 4 = 0
           then 11025
           else (if av.sampleRateU = 0 then 44100 else av.sampleRateU) / 4) ∧
    (libretro_frontend_update_av_info fe av).audio.readPos = 0 ∧
    (libretro_frontend_update_av_info fe av).audio.writePos = 0 ∧
    (libretro_frontend_update_av_info fe av).audio.avail = 0 := by
  constructor
  · unfold envSetSystemAVInfo
    split <;> rfl
  · simp only [libretro_frontend_update_av_info, if_pos hdiff]
    split <;> simp

theorem av_info_reallocation_witness :
    (envSetSystemAVInfo initFrontend ⟨384, 272, 4 / 3, 50, 48000⟩).1.audio
        = initFrontend.audio ∧
    (libretro_frontend_update_av_info initFrontend
        ⟨384, 272, 4 / 3, 50, 48000⟩).audioSampleRate
        = (if (48000 : Nat) = 0 then 44100 else 48000) ∧
    (libretro_frontend_update_av_info initFrontend
        ⟨384, 272, 4 / 3, 50, 48000⟩).audio.size
        = (if (if (48000 : Nat) = 0 then 44100 else 48000) / 4 = 0 then 11025
           else (if (48000 : Nat) = 0 then 44100 else 48000) / 4) ∧
    (libretro_frontend_update_av_info initFrontend
        ⟨384, 272, 4 / 3, 50, 48000⟩).audio.readPos = 0 ∧
    (libretro_frontend_update_av_info initFrontend
        ⟨384, 272, 4 / 3, 50, 48000⟩).audio.writePos = 0 ∧
    (libretro_frontend_update_av_info initFrontend
        ⟨384, 272, 4 / 3, 50, 48000⟩).audio.avail = 0 :=
  av_info_reallocation initFrontend ⟨384, 272, 4 / 3, 50, 48000⟩ (by decide)

/-- C7 counterexample: the set-pixel-format command does not reject codes
outside {0,1,2,12} - at code 5 it returns true, not false. -/
theorem set_pixel_format_reject_cex :
    (retro_environment_callback initFrontend 10 (EnvData.fmt 5)).2 ≠ false := by
  decide

/-- C7 (amended): the set-pixel-format command accepts every format code
(returns true); codes 0 and 1 select their own layout, every other code -
including the snes9x alias 12 - selects format 2's bit layout (RGB565);
the session's raw-format field always records the original code. -/
theorem set_pixel_format_spec (fe : Frontend) (format : Nat) :
    (retro_environment_callback fe 10 (EnvData.fmt format)).2 = true ∧
    (retro_environment_callback fe 10 (EnvData.fmt format)).1.pixelFormatRaw
        = format ∧
    (retro_environment_callback fe 10 (EnvData.fmt format)).1.pixelFormat
        = (if format = 0 then 0 else if format = 1 then 1 else 2) := by
  have h : retro_environment_callback fe 10 (EnvData.fmt format)
      = envSetPixelFormat fe format := rfl
  rw [h]
  unfold envSetPixelFormat
  split_ifs <;> simp_all

/-- C8: every environment command id outside the recognized set is
rejected: the callback returns false and the session state is returned
unchanged. -/
theorem unrecognized_cmd_rejected (fe : Frontend) (cmd : Nat) (data : EnvData)
    (h : cmd ∉ recognizedCmds) :
    retro_environment_callback fe cmd data = (fe, false) := by
  simp only [recognizedCmds, List.mem_cons, List.not_mem_nil, or_false,
    not_or] at h
  obtain ⟨h7, h9, h10, h11, h12, h14, h18, h22, h27, h30, h31, h32, h33, h34,
    h35, h36, h37, h38, h39, h52, h53⟩ := h
  unfold retro_environment_callback
  rw [if_neg h10, if_neg (by simp [h7, h31, h18, h30, h52, h27]),
    if_neg (by simp [h9, h12, h14, h53, h22, h39, h11, h33, h34, h35, h36, h38]),
    if_neg h32, if_neg h37]

theorem unrecognized_cmd_rejected_witness :
    retro_environment_callback initFrontend 99 EnvData.null
      = (initFrontend, false) :=
  unrecognized_cmd_rejected initFrontend 99 EnvData.null (by decide)

/-- Which entry points the native module at the given path actually
exports (whether each dlsym in libretro_core_load succeeds).  Only the
symbols whose absence changes control flow, plus the ones the dispatch
record retains for the claims, are tracked; the remaining entry points
are resolved the same optional way as hasReset below. -/
structure CoreModule where
  hasSetEnvironment : Bool
  hasInit : Bool
  hasDeinit : Bool
  hasRun : Bool
  hasReset : Bool
  hasLoadGame : Bool
  hasUnloadGame : Bool
  hasGetSystemAVInfo : Bool
deriving Repr, DecidableEq

/-- The retro_core_t dispatch record (src/libretro_core_types.h) as
populated by libretro_core_load: each field records whether the
corresponding function pointer is non-NULL. -/
structure DispatchTable where
  retroInit : Bool
  retroDeinit : Bool
  retroRun : Bool
  retroReset : Bool
  retroLoadGame : Bool
  retroUnloadGame : Bool
  retroGetSystemAVInfo : Bool
deriving Repr, DecidableEq

/-- The dlsym resolution block of libretro_core_load
(src/libretro_core.c lines 103-120). -/
def resolveDispatch (m : CoreModule) : DispatchTable :=
  { retroInit := m.hasInit, retroDeinit := m.hasDeinit, retroRun := m.hasRun,
    retroReset := m.hasReset, retroLoadGame := m.hasLoadGame,
    retroUnloadGame := m.hasUnloadGame,
    retroGetSystemAVInfo := m.hasGetSystemAVInfo }

/-- The loader-relevant fields of libretro_frontend_t: whether the native
module handle (core_handle) is non-NULL, the dispatch record (core;
none = NULL), and the has_set_environment flag. -/
structure CoreSession where
  coreHandle : Bool
  core : Option DispatchTable
  hasSetEnvironmentFlag : Bool
deriving Repr, DecidableEq

/-- libretro_core_load (src/libretro_core.c lines 64-132; the
corresponding checks of libretro_frontend_load_core sit at
src/libretro_frontend.c lines 500-583 with the same failure handling).
`mod = none` models dlopen failing.  The calloc of the dispatch record is
assumed to succeed (its failure path also nulls handle and record).  On a
missing retro_set_environment, and likewise on a missing retro_init or
retro_run, the record is freed, the module closed, and both pointers
nulled before returning false; has_set_environment keeps whatever the
code set before the failure. -/
def libretro_core_load (s : CoreSession) (mod : Option CoreModule) :
    CoreSession × Bool :=
  match mod with
  | none => (s, false)
  | some m =>
    let s1 := { s with coreHandle := true }
    if ¬ m.hasSetEnvironment then
      ({ s1 with core := none, coreHandle := false }, false)
    else
      let s2 := { s1 with hasSetEnvironmentFlag := true }
      if ¬ m.hasInit ∨ ¬ m.hasRun then
        ({ s2 with core := none, coreHandle := false }, false)
      else
        ({ s2 with core := some (resolveDispatch m) }, true)

/-- C9: when the module lacks the mandatory retro_run or retro_init entry
point, loading fails (returns false) and afterwards neither a module
handle nor a dispatch record remains allocated: core_handle and core are
both null. -/
theorem load_missing_mandatory_symbol_fails (s : CoreSession) (m : CoreModule)
    (hmiss : m.hasInit = false ∨ m.hasRun = false) :
    (libretro_core_load s (some m)).2 = false ∧
    (libretro_core_load s (some m)).1.coreHandle = false ∧
    (libretro_core_load s (some m)).1.core = none := by
  unfold libretro_core_load
  rcases hmiss with h | h <;>
  · simp only [h]
    split <;> simp

theorem load_missing_mandatory_symbol_fails_witness :
    (libretro_core_load ⟨false, none, false⟩
        (some ⟨true, true, true, false, true, true, true, true⟩)).2 = false ∧
    (libretro_core_load ⟨false, none, false⟩
        (some ⟨true, true, true, false, true, true, true, true⟩)).1.coreHandle
        = false ∧
    (libretro_core_load ⟨false, none, false⟩
        (some ⟨true, true, true, false, true, true, true, true⟩)).1.core
        = none :=
  load_missing_mandatory_symbol_fails ⟨false, none, false⟩
    ⟨true, true, true, false, true, true, true, true⟩ (by decide)

/-- A plugin entry point invoked by the frame loop. -/
inductive PluginCall where
  | inputPoll
  | run
deriving Repr, DecidableEq

/-- The session fields libretro_frontend_run_frame touches or guards on:
the dispatch record, the initialized flag, whether load-game succeeded
(the spec's Running state), the has_set_input_poll binding flag, the
frames pending in the single-sample accumulator, and the audio ring the
flush writes into.  The file-static frame_count it increments is
process-wide debug state, not session state. -/
structure RunSession where
  core : Option DispatchTable
  initialized : Bool
  gameLoaded : Bool
  hasSetInputPoll : Bool
  pending : List I16Frame
  audio : AudioRing
deriving Repr, DecidableEq

/-- flush_single_sample_buffer (src/libretro_frontend.c lines 1480-1486;
same as libretro_audio_flush_buffer, src/libretro_audio.c lines 68-73):
batch-writes any accumulated single samples into the ring and clears the
accumulator. -/
def flush_single_sample_buffer (s : RunSession) : RunSession :=
  if s.pending.isEmpty then s
  else { s with
    audio := (retro_audio_sample_batch_callback s.audio s.pending).1,
    pending := [] }

/-- libretro_frontend_run_frame (src/libretro_frontend.c lines 869-890):
returns the state after the call together with the plugin entry points it
invokes.  The guard checks only frontend, core and initialized - not
whether a game was started.  What retro_run itself does to the session is
the plugin's re-entrant business and is not part of this host model; the
host-side effect modelled is the trailing accumulator flush. -/
def libretro_frontend_run_frame (s : RunSession) : RunSession × List PluginCall :=
  match s.core with
  | none => (s, [])
  | some d =>
    if ¬ s.initialized then (s, [])
    else
      ((flush_single_sample_buffer s),
       (if s.hasSetInputPoll then [PluginCall.inputPoll] else [])
         ++ (if d.retroRun then [PluginCall.run] else []))

/-- C10 counterexample: a session that is Initialized but has not started
a game (gameLoaded = false, so its lifecycle state is not Running) is NOT
a no-op for run_frame - the per-frame plugin entry point retro_run is
invoked, because the guard only checks the initialized flag. -/
theorem run_frame_not_running_noop_cex :
    (⟨some ⟨true, true, true, true, true, true, true⟩, true, false, false, [],
        ⟨4, Array.mkArray 4 silentFrame, 0, 0, 0⟩⟩ : RunSession).gameLoaded
        = false ∧
    (libretro_frontend_run_frame
        ⟨some ⟨true, true, true, true, true, true, true⟩, true, false, false, [],
          ⟨4, Array.mkArray 4 silentFrame, 0, 0, 0⟩⟩).2 = [PluginCall.run] := by
  decide

/-- C10 (amended): run_frame is a no-op - no plugin entry point invoked,
session state returned unchanged - exactly when no dispatch record is
present or the core is not initialized; once initialize has succeeded the
guard passes and the per-frame entry point is invoked even if no game has
been started. -/
theorem run_frame_noop_when_not_initialized (s : RunSession)
    (h : s.core = none ∨ s.initialized = false) :
    libretro_frontend_run_frame s = (s, []) := by
  unfold libretro_frontend_run_frame
  rcases h with h | h
  · rw [h]
  · cases hc : s.core with
    | none => rfl
    | some d => simp [h]

theorem run_frame_noop_when_not_initialized_witness :
    libretro_frontend_run_frame
        ⟨some ⟨true, true, true, true, true, true, true⟩, false, false, false, [],
          ⟨4, Array.mkArray 4 silentFrame, 0, 0, 0⟩⟩
      = (⟨some ⟨true, true, true, true, true, true, true⟩, false, false, false, [],
          ⟨4, Array.mkArray 4 silentFrame, 0, 0, 0⟩⟩, []) :=
  run_frame_noop_when_not_initialized
    ⟨some ⟨true, true, true, true, true, true, true⟩, false, false, false, [],
      ⟨4, Array.mkArray 4 silentFrame, 0, 0, 0⟩⟩ (by decide)

end Libretro
